import Mathlib

/-!
Entra ID token refresh for Argo CD (`main.go`).

A shallow embedding of `main.go` and the properties of its token federation
and rotation flow.

Conventions of the embedding.

* A Go `string` is a Lean `String`.  Every string the program handles comes out
  of a JSON document or a Go literal, so it is valid UTF-8; on such strings the
  byte-wise `strings.Contains` agrees with containment of character sequences.
  `[]byte(s)` is the UTF-8 encoding of `s`.
* A Go `error` is identified with its message (`err.Error()`).
* The functions of `main.go` return Go result tuples (`(string, string, error)`
  becomes `String × String × Option Error`), so that the values returned next to
  an error are visible.  Library calls return `Except`.
* The libraries the program calls (client-go, MSAL) are parameters: a record of
  functions.  Every call made to a collaborator is appended to a trace that is
  threaded through the program, so that which calls happen, in which order and
  with which arguments can be stated.
-/

namespace Main

/-! ## Strings and errors -/

/-- Go `error`, identified with its message. -/
abbrev Error := String

/-- Does `sub` occur in `s` as a contiguous block? -/
def containsChars : List Char → List Char → Bool
  | [], sub => sub.isPrefixOf []
  | c :: s, sub => sub.isPrefixOf (c :: s) || containsChars s sub

/-- Go `strings.Contains(s, substr)`. -/
def Contains (s substr : String) : Bool :=
  containsChars s.data substr.data

/-- Go `strings.HasSuffix(s, suffix)`. -/
def HasSuffix (s suffix : String) : Bool := suffix.data.isSuffixOf s.data

/-- Go `[]byte(s)`: the UTF-8 encoding of `s`. -/
def bytesOf (s : String) : List UInt8 :=
  s.data.flatMap String.utf8EncodeChar

/-- Source constant `AzureDevOpsResourceId`. -/
def AzureDevOpsResourceId : String := "499b84ac-1321-427f-aa17-267ca6975798"

/-- Source constant `AzureEntraIDEndpoint`. -/
def AzureEntraIDEndpoint : String := "https://login.microsoftonline.com/"

/-! ## Kubernetes API objects -/

/-- The part of `corev1.ServiceAccount` the program reads: `sa.Annotations`, a Go
`map[string]string` seen through its lookup (`v, ok := m[k]`). -/
structure ServiceAccount where
  Annotations : String → Option String

/-- Go `authv1.TokenRequestSpec`. -/
structure TokenRequestSpec where
  Audiences : List String

/-- Go `authv1.TokenRequestStatus`. -/
structure TokenRequestStatus where
  Token : String

/-- Go `authv1.TokenRequest`. -/
structure TokenRequest where
  Spec : TokenRequestSpec
  Status : TokenRequestStatus

/-- A JSON object all of whose members are strings (Go `map[string]string`). -/
abbrev StringMap := List (String × String)

/-- A JSON object whose members are objects of strings: the shape of `patchData`,
`map[string]interface{}{"data": map[string]string{...}}`. -/
abbrev Document := List (String × StringMap)

/-- A `corev1.Secret` in wire form: `data` maps each key to the base64 text of its
value. -/
abbrev Secret := Document

/-- Go `types.PatchType`. -/
inductive PatchType where
  | JSONPatchType
  | MergePatchType
  | StrategicMergePatchType
  | ApplyPatchType
  deriving DecidableEq, Repr

/-- The methods of `kcorev1.CoreV1Interface` the program calls. -/
structure CoreV1Interface where
  /-- The call `ServiceAccounts(ns).Get(ctx, name, metav1.GetOptions{})`. -/
  ServiceAccountsGet : String → String → Except Error ServiceAccount
  /-- The call `ServiceAccounts(ns).CreateToken(ctx, name, tokenRequest, metav1.CreateOptions{})`. -/
  ServiceAccountsCreateToken : String → String → TokenRequest → Except Error TokenRequest
  /-- The call `Secrets(ns).Patch(ctx, name, patchType, data, metav1.PatchOptions{})`. -/
  SecretsPatch : String → String → PatchType → String → Except Error Secret

/-- Go `kubernetes.Clientset`, through its `CoreV1()` accessor. -/
structure Clientset where
  CoreV1 : CoreV1Interface

/-! ## MSAL -/

/-- Go `confidential.Credential` made from an assertion callback.  The callback of
`main.go` ignores its context and `AssertionRequestOptions` arguments. -/
structure Credential where
  assertionCallback : Unit → String × Option Error

/-- Go `confidential.NewCredFromAssertionCallback`. -/
def NewCredFromAssertionCallback (callback : Unit → String × Option Error) : Credential :=
  ⟨callback⟩

/-- Go `confidential.AuthResult`, the field the program reads. -/
structure AuthResult where
  AccessToken : String

/-- The libraries and the environment `UpdateAccessToken` runs against. -/
structure Env where
  /-- Go `rest.Config`. -/
  Config : Type
  /-- Go `rest.InClusterConfig()`. -/
  InClusterConfig : Except Error Config
  /-- Go `kubernetes.NewForConfig(config)`. -/
  NewForConfig : Config → Except Error Clientset
  /-- Go `confidential.Client`. -/
  ConfidentialClient : Type
  /-- Go `confidential.New(authority, clientID, cred)`. -/
  ConfidentialNew : String → String → Credential → Except Error ConfidentialClient
  /-- Go `cClient.AcquireTokenByCredential(ctx, scopes)`. -/
  AcquireTokenByCredential : ConfidentialClient → List String → Except Error AuthResult

/-! ## The trace of collaborator calls -/

/-- One call to a collaborator, with the arguments the program passed.  A credential
is recorded by what its assertion callback returns. -/
inductive Call where
  | getServiceAccount (ns name : String)
  | createToken (ns name : String) (audiences : List String)
  | confidentialNew (authority clientID : String) (assertion : String × Option Error)
  | acquireTokenByCredential (scopes : List String)
  | patchSecret (ns name : String) (pt : PatchType) (data : String)
  deriving DecidableEq, Repr

/-- The calls made so far, oldest first. -/
abbrev Trace := List Call

/-! ## `encoding/base64`, standard encoding -/

/-- The alphabet of `base64.StdEncoding`. -/
def encodeStd : List Char :=
  "ABCDEFGHIJKLMNOPQRSTUVWXYZabcdefghijklmnopqrstuvwxyz0123456789+/".data

/-- The padding character of `base64.StdEncoding`. -/
def padChar : Char := '='

/-- Go `enc.encode[i]`. -/
def encodeAt (i : Nat) : Char := encodeStd.getD i 'A'

/-- Go `(*Encoding).Encode` for `StdEncoding`: each full group of three bytes gives
four characters of `val := src[0]<<16 | src[1]<<8 | src[2]`; a remainder of one or
two bytes gives two or three characters and padding. -/
def encodeBytes : List UInt8 → List Char
  | a :: b :: c :: rest =>
    let val := a.toNat * 65536 + b.toNat * 256 + c.toNat
    encodeAt (val / 262144 % 64) :: encodeAt (val / 4096 % 64) ::
      encodeAt (val / 64 % 64) :: encodeAt (val % 64) :: encodeBytes rest
  | [a, b] =>
    let val := a.toNat * 65536 + b.toNat * 256
    [encodeAt (val / 262144 % 64), encodeAt (val / 4096 % 64), encodeAt (val / 64 % 64), padChar]
  | [a] =>
    let val := a.toNat * 65536
    [encodeAt (val / 262144 % 64), encodeAt (val / 4096 % 64), padChar, padChar]
  | [] => []

/-- Go `base64.StdEncoding.EncodeToString(src)`. -/
def EncodeToString (src : List UInt8) : String := ⟨encodeBytes src⟩

/-- The value of a character of the standard alphabet. -/
def decodeChar (c : Char) : Option Nat :=
  let i := encodeStd.indexOf c
  if i < 64 then some i else none

/-- Standard base64 decoding with padding (RFC 4648, section 4): every four
characters give three bytes, a final group may end in one or two padding
characters. -/
def decodeChars : List Char → Option (List UInt8)
  | [] => some []
  | c0 :: c1 :: c2 :: c3 :: rest =>
    if c3 = padChar then
      if rest ≠ [] then none
      else if c2 = padChar then
        match decodeChar c0, decodeChar c1 with
        | some i0, some i1 => some [UInt8.ofNat (i0 * 4 + i1 / 16)]
        | _, _ => none
      else
        match decodeChar c0, decodeChar c1, decodeChar c2 with
        | some i0, some i1, some i2 =>
          some [UInt8.ofNat (i0 * 4 + i1 / 16), UInt8.ofNat (i1 % 16 * 16 + i2 / 4)]
        | _, _, _ => none
    else
      match decodeChar c0, decodeChar c1, decodeChar c2, decodeChar c3, decodeChars rest with
      | some i0, some i1, some i2, some i3, some tail =>
        some (UInt8.ofNat (i0 * 4 + i1 / 16) :: UInt8.ofNat (i1 % 16 * 16 + i2 / 4) ::
          UInt8.ofNat (i2 % 4 * 64 + i3) :: tail)
      | _, _, _, _, _ => none
  | _ => none

/-- Standard base64 decoding of a string. -/
def DecodeString (s : String) : Option (List UInt8) := decodeChars s.data

/-! ## `encoding/json`, for documents of the shape of `patchData` -/

/-- Go `hex[i]` of `encoding/json`. -/
def hexDigit (i : Nat) : Char := "0123456789abcdef".data.getD i '0'

/-- The characters of Go's `htmlSafeSet`: printable ASCII and DEL, except the double
quote, `&`, `<`, `>` and the backslash. -/
def htmlSafe (c : Char) : Bool :=
  decide (32 ≤ c.toNat) && decide (c.toNat ≤ 127) &&
    !(c.toNat == 34 || c.toNat == 38 || c.toNat == 60 || c.toNat == 62 || c.toNat == 92)

/-- How `encoding/json` writes one character of a string (HTML escaping on, as in
`json.Marshal`). -/
def escapeChar (c : Char) : List Char :=
  if c.toNat < 128 then
    if htmlSafe c then [c]
    else if c.toNat = 92 ∨ c.toNat = 34 then [Char.ofNat 92, c]
    else if c.toNat = 8 then [Char.ofNat 92, 'b']
    else if c.toNat = 12 then [Char.ofNat 92, 'f']
    else if c.toNat = 10 then [Char.ofNat 92, 'n']
    else if c.toNat = 13 then [Char.ofNat 92, 'r']
    else if c.toNat = 9 then [Char.ofNat 92, 't']
    else [Char.ofNat 92, 'u', '0', '0', hexDigit (c.toNat / 16), hexDigit (c.toNat % 16)]
  else if c.toNat = 8232 ∨ c.toNat = 8233 then
    [Char.ofNat 92, 'u', '2', '0', '2', hexDigit (c.toNat % 16)]
  else [c]

/-- A JSON string literal as `encoding/json` writes it. -/
def marshalString (s : String) : String :=
  ⟨Char.ofNat 34 :: (s.data.flatMap escapeChar ++ [Char.ofNat 34])⟩

/-- Order of the keys of a Go map in `encoding/json` output. -/
def keyLE {α : Type} (a b : String × α) : Prop := a.1 < b.1 ∨ a.1 = b.1

instance {α : Type} : DecidableRel (keyLE : String × α → String × α → Prop) :=
  fun a b => inferInstanceAs (Decidable (a.1 < b.1 ∨ a.1 = b.1))

/-- A JSON object as `encoding/json` writes a Go map: members sorted by key,
separated by commas, each written as key, colon, value. -/
def marshalObject {α : Type} (value : α → String) (members : List (String × α)) : String :=
  "\x7b" ++ ",".intercalate
    ((members.insertionSort keyLE).map fun kv => marshalString kv.1 ++ ":" ++ value kv.2) ++ "\x7d"

/-- Go `json.Marshal` on a `map[string]interface{}` whose values are
`map[string]string`.  It has no failing case on such a value. -/
def Marshal (v : Document) : Except Error String :=
  .ok (marshalObject (marshalObject marshalString) v)

/-! ## The credential store -/

/-- Set member `k` of a JSON object to `v`, keeping every other member. -/
def setMember {α : Type} (k : String) (v : α) : List (String × α) → List (String × α)
  | [] => [(k, v)]
  | (k', v') :: rest => if k' = k then (k, v) :: rest else (k', v') :: setMember k v rest

/-- The value of member `k` of a JSON object, if it has one. -/
def member? {α : Type} (k : String) : List (String × α) → Option α
  | [] => none
  | (k', v) :: rest => if k' = k then some v else member? k rest

/-- Modelled from the spec: the merge patch of the credential store on an object of
strings, "a partial update that modifies only named fields of a stored record,
leaving others untouched".  Every member of the patch is set in the target. -/
def mergeStrings (target patch : StringMap) : StringMap :=
  patch.foldl (fun t kv => setMember kv.1 kv.2 t) target

/-- Modelled from the spec: the merge patch of the credential store on a stored
record.  A member of the patch is merged into the member of the same name of the
target (into the empty object when the target has none); members the patch does not
name are left untouched. -/
def mergePatch (target patch : Document) : Document :=
  patch.foldl (fun t kv => setMember kv.1 (mergeStrings ((member? kv.1 t).getD []) kv.2) t) target

/-! ## `main.go` -/

/-- Go `FetchSAToken`. -/
def FetchSAToken (ns name : String) (audiences : List String) (kubeClient : CoreV1Interface)
    (tr : Trace) : (String × Option Error) × Trace :=
  let tr := tr ++ [Call.createToken ns name audiences]
  match kubeClient.ServiceAccountsCreateToken ns name
      { Spec := { Audiences := audiences }, Status := { Token := "" } } with
  | .error err => (("", some err), tr)
  | .ok token => ((token.Status.Token, none), tr)

/-- Go `FetchWorkloadIdentityInfo`. -/
def FetchWorkloadIdentityInfo (argocdNamespaceName serviceAccountName : String)
    (kubeClient : CoreV1Interface) (tr : Trace) : (String × String × Option Error) × Trace :=
  let tr := tr ++ [Call.getServiceAccount argocdNamespaceName serviceAccountName]
  match kubeClient.ServiceAccountsGet argocdNamespaceName serviceAccountName with
  | .error err => (("", "", some err), tr)
  | .ok sa =>
    match sa.Annotations "azure.workload.identity/tenant-id" with
    | none =>
      (("", "", some ("missing annotation 'azure.workload.identity/tenant-id' in service account '"
        ++ serviceAccountName ++ "'")), tr)
    | some tenantID =>
      match sa.Annotations "azure.workload.identity/client-id" with
      | none =>
        (("", "", some ("missing annotation 'azure.workload.identity/client-id' in service account '"
          ++ serviceAccountName ++ "'")), tr)
      | some clientID => ((tenantID, clientID, none), tr)

/-- The scope construction of `FetchEntraIdAccessToken`, as a function of the resource
identifier: `scope := r; if !strings.Contains(r, ".default") { scope = r + "/.default" }`. -/
def scopeFor (resource : String) : String :=
  if !Contains resource ".default" then resource ++ "/.default" else resource

/-- Go `FetchEntraIdAccessToken`. -/
def FetchEntraIdAccessToken (env : Env) (tenantID clientID saToken : String) (tr : Trace) :
    (String × Option Error) × Trace :=
  let cred := NewCredFromAssertionCallback fun _ => (saToken, none)
  let authority := AzureEntraIDEndpoint ++ tenantID ++ "/oauth2/token"
  let tr := tr ++ [Call.confidentialNew authority clientID (cred.assertionCallback ())]
  match env.ConfidentialNew authority clientID cred with
  | .error err => (("", some err), tr)
  | .ok cClient =>
    let scope := scopeFor AzureDevOpsResourceId
    let tr := tr ++ [Call.acquireTokenByCredential [scope]]
    match env.AcquireTokenByCredential cClient [scope] with
    | .error err => (("", some err), tr)
    | .ok authRes => ((authRes.AccessToken, none), tr)

/-- The value `patchData` of `PatchSecret`. -/
def patchData (token : String) : Document :=
  [("data", [("password", EncodeToString (bytesOf token))])]

/-- Go `PatchSecret`. -/
def PatchSecret (argocdNamespaceName secretName token : String) (client : CoreV1Interface)
    (tr : Trace) : (Option Secret × Option Error) × Trace :=
  match Marshal (patchData token) with
  | .error err => ((none, some err), tr)
  | .ok patchBytes =>
    let tr := tr ++ [Call.patchSecret argocdNamespaceName secretName
      PatchType.StrategicMergePatchType patchBytes]
    match client.SecretsPatch argocdNamespaceName secretName
        PatchType.StrategicMergePatchType patchBytes with
    | .error err => ((none, some err), tr)
    | .ok secret => ((some secret, none), tr)

/-- Go `UpdateAccessToken`. -/
def UpdateAccessToken (env : Env) (argocdNamespaceName serviceAccountName secretName : String)
    (tr : Trace) : (Option Secret × Option Error) × Trace :=
  match env.InClusterConfig with
  | .error err => ((none, some err), tr)
  | .ok config =>
    match env.NewForConfig config with
    | .error err => ((none, some err), tr)
    | .ok clientset =>
      let client := clientset.CoreV1
      match FetchWorkloadIdentityInfo argocdNamespaceName serviceAccountName client tr with
      | ((_, _, some err), tr) => ((none, some err), tr)
      | ((tenantID, clientID, none), tr) =>
        match FetchSAToken argocdNamespaceName serviceAccountName
            ["api://AzureADTokenExchange"] client tr with
        | ((_, some err), tr) => ((none, some err), tr)
        | ((saToken, none), tr) =>
          match FetchEntraIdAccessToken env tenantID clientID saToken tr with
          | ((_, some err), tr) => ((none, some err), tr)
          | ((token, none), tr) =>
            match PatchSecret argocdNamespaceName secretName token client tr with
            | ((_, some err), tr) => ((none, some err), tr)
            | ((secret, none), tr) => ((secret, none), tr)

/-- The calls of a trace that write the credential store. -/
def publishCalls (tr : Trace) : Trace :=
  tr.filter fun c => match c with
    | .patchSecret _ _ _ _ => true
    | _ => false

/-- The calls of a trace that go to the identity provider. -/
def exchangeCalls (tr : Trace) : Trace :=
  tr.filter fun c => match c with
    | .confidentialNew _ _ _ => true
    | .acquireTokenByCredential _ => true
    | _ => false

/-- The credential store after the calls of a trace, for a store that answers a patch
call with `apply`: the only calls that write it are the patch calls. -/
def storeAfter {σ : Type} (apply : σ → String → String → PatchType → String → σ)
    (store : σ) (tr : Trace) : σ :=
  tr.foldl (fun s c => match c with
    | .patchSecret ns name pt data => apply s ns name pt data
    | _ => s) store

/-! ## Example clusters -/

/-- A service account carrying the listed annotations. -/
def accountWith (annotations : StringMap) : ServiceAccount :=
  ⟨fun k => member? k annotations⟩

/-- A cluster client that knows one service account `sa1` in namespace `ns1`, issues
`token` for it, and answers a patch of secret `s1` in `ns1` with `patch`. -/
def clusterClient (sa : ServiceAccount) (token : Except Error String)
    (patch : String → Except Error Secret) : CoreV1Interface where
  ServiceAccountsGet := fun ns name =>
    if ns = "ns1" ∧ name = "sa1" then .ok sa else .error "serviceaccounts not found"
  ServiceAccountsCreateToken := fun ns name req =>
    if ns = "ns1" ∧ name = "sa1" then
      match token with
      | .ok t => .ok { req with Status := { Token := t } }
      | .error e => .error e
    else .error "serviceaccounts not found"
  SecretsPatch := fun ns name _ data =>
    if ns = "ns1" ∧ name = "s1" then patch data else .error "secrets not found"

/-- An environment in which the in-cluster client is `client` and the identity provider
answers a token request for (authority, client id, assertion) and scopes with
`exchange`. -/
def clusterEnv (client : CoreV1Interface)
    (exchange : String × String × String → List String → Except Error String) : Env where
  Config := Unit
  InClusterConfig := .ok ()
  NewForConfig := fun _ => .ok ⟨client⟩
  ConfidentialClient := String × String × String
  ConfidentialNew := fun authority clientID cred =>
    .ok (authority, clientID, (cred.assertionCallback ()).1)
  AcquireTokenByCredential := fun cClient scopes =>
    match exchange cClient scopes with
    | .ok t => .ok ⟨t⟩
    | .error e => .error e

/-- An identity provider that gives `AT` for tenant `T`, client `C`, assertion `PT` and
the Azure DevOps default scope, and rejects every other request. -/
def exchangeTCPT (cClient : String × String × String) (scopes : List String) :
    Except Error String :=
  if cClient = ("https://login.microsoftonline.com/T/oauth2/token", "C", "PT") ∧
      scopes = ["499b84ac-1321-427f-aa17-267ca6975798/.default"] then .ok "AT"
  else .error "invalid_client"

/-- A store holding `{password: "old", other: "x"}` under `s1`: a patch is answered
with the merged record when its bytes are the patch document for `AT`. -/
def patchOldSecret (data : String) : Except Error Secret :=
  match Marshal (patchData "AT") with
  | .ok expected =>
    if data = expected then
      .ok (mergePatch [("data", [("password", "old"), ("other", "x")])] (patchData "AT"))
    else .error "unsupported patch"
  | .error e => .error e

/-! ## Containment -/

/-- The search of `containsChars` finds exactly the contiguous blocks. -/
theorem containsChars_iff_infix (s sub : List Char) :
    containsChars s sub = true ↔ sub <:+: s := by
  induction s with
  | nil => simp [containsChars, List.isPrefixOf_iff_prefix]
  | cons c s ih =>
    simp [containsChars, List.isPrefixOf_iff_prefix, List.infix_cons_iff, ih]

theorem containsChars_of_isPrefixOf (s sub : List Char) (h : sub.isPrefixOf s = true) :
    containsChars s sub = true := by
  cases s with
  | nil => simpa [containsChars] using h
  | cons c s => simp [containsChars, h]

theorem containsChars_append (a b c : List Char) :
    containsChars (a ++ (b ++ c)) b = true := by
  induction a with
  | nil =>
    apply containsChars_of_isPrefixOf
    simp [List.isPrefixOf_iff_prefix]
  | cons x a ih =>
    simp only [List.cons_append, containsChars, List.append_eq, ih, Bool.or_true]

theorem contains_append_middle (a b c : String) : Contains (a ++ b ++ c) b = true := by
  simp only [Contains, String.data_append, List.append_assoc]
  exact containsChars_append a.data b.data c.data

theorem contains_append_right (a b c : String) (h : Contains b c = true) :
    Contains (a ++ b) c = true := by
  simp only [Contains, String.data_append] at h ⊢
  induction a.data with
  | nil => simpa using h
  | cons x l ih => simp only [List.cons_append, containsChars, List.append_eq, ih, Bool.or_true]

theorem contains_of_hasSuffix (s suffix sub : String) (hs : HasSuffix s suffix = true)
    (h : Contains suffix sub = true) : Contains s sub = true := by
  simp only [HasSuffix, List.isSuffixOf_iff_suffix] at hs
  obtain ⟨t, ht⟩ := hs
  have e : s = ⟨t⟩ ++ suffix := by
    apply String.ext
    simp [String.data_append, ht]
  rw [e]
  exact contains_append_right _ _ _ h

/-! ## Identity binding resolution -/

/-- C1, as amended: for every namespace, principal name and service account that the
lookup returns and whose annotations lack the tenant-id or the client-id key,
`FetchWorkloadIdentityInfo` returns an error and empty identifiers; the message
contains the principal name and the key of the first missing annotation: the tenant-id
key whenever tenant-id is missing, the client-id key when only client-id is missing. -/
theorem fetchWorkloadIdentityInfo_missing (ns name : String) (kubeClient : CoreV1Interface)
    (sa : ServiceAccount) (tr : Trace)
    (hget : kubeClient.ServiceAccountsGet ns name = .ok sa)
    (hmiss : sa.Annotations "azure.workload.identity/tenant-id" = none ∨
      sa.Annotations "azure.workload.identity/client-id" = none) :
    ∃ msg, (FetchWorkloadIdentityInfo ns name kubeClient tr).1 = ("", "", some msg) ∧
      Contains msg name = true ∧
      Contains msg (if sa.Annotations "azure.workload.identity/tenant-id" = none
        then "azure.workload.identity/tenant-id"
        else "azure.workload.identity/client-id") = true := by
  have e1 : "missing annotation 'azure.workload.identity/tenant-id' in service account '"
      = "missing annotation '" ++ "azure.workload.identity/tenant-id" ++
        "' in service account '" := by decide
  have e2 : "missing annotation 'azure.workload.identity/client-id' in service account '"
      = "missing annotation '" ++ "azure.workload.identity/client-id" ++
        "' in service account '" := by decide
  cases ht : sa.Annotations "azure.workload.identity/tenant-id" with
  | none =>
    refine ⟨"missing annotation 'azure.workload.identity/tenant-id' in service account '"
      ++ name ++ "'", ?_, ?_, ?_⟩
    · simp only [FetchWorkloadIdentityInfo, hget, ht]
    · exact contains_append_middle _ _ _
    · rw [if_pos rfl, e1, String.append_assoc _ name,
        String.append_assoc _ "' in service account '"]
      exact contains_append_middle _ _ _
  | some t =>
    have hc : sa.Annotations "azure.workload.identity/client-id" = none := by
      rcases hmiss with h | h
      · rw [ht] at h; cases h
      · exact h
    refine ⟨"missing annotation 'azure.workload.identity/client-id' in service account '"
      ++ name ++ "'", ?_, ?_, ?_⟩
    · simp only [FetchWorkloadIdentityInfo, hget, ht, hc]
    · exact contains_append_middle _ _ _
    · rw [if_neg (by simp), e2, String.append_assoc _ name,
        String.append_assoc _ "' in service account '"]
      exact contains_append_middle _ _ _

/-- Witness of C1 as amended: an account with only the tenant-id annotation. -/
theorem fetchWorkloadIdentityInfo_missing_witness :
    ∃ msg, (FetchWorkloadIdentityInfo "ns1" "sa1"
        (clusterClient (accountWith [("azure.workload.identity/tenant-id", "t1")]) (.ok "PT")
          patchOldSecret) []).1 = ("", "", some msg) ∧
      Contains msg "sa1" = true ∧
      Contains msg (if (accountWith [("azure.workload.identity/tenant-id", "t1")]).Annotations
          "azure.workload.identity/tenant-id" = none
        then "azure.workload.identity/tenant-id"
        else "azure.workload.identity/client-id") = true :=
  fetchWorkloadIdentityInfo_missing "ns1" "sa1" _
    (accountWith [("azure.workload.identity/tenant-id", "t1")]) [] (by rfl) (Or.inr (by rfl))

/-- C1, counterexample: a service account without annotations lacks the client-id key,
yet the error message of `FetchWorkloadIdentityInfo` names only the tenant-id key. -/
theorem fetchWorkloadIdentityInfo_both_missing :
    (accountWith []).Annotations "azure.workload.identity/tenant-id" = none ∧
    (accountWith []).Annotations "azure.workload.identity/client-id" = none ∧
    (FetchWorkloadIdentityInfo "ns1" "sa1"
      (clusterClient (accountWith []) (.ok "PT") patchOldSecret) []).1 =
      ("", "", some
        "missing annotation 'azure.workload.identity/tenant-id' in service account 'sa1'") ∧
    Contains "missing annotation 'azure.workload.identity/tenant-id' in service account 'sa1'"
      "azure.workload.identity/client-id" = false := by
  refine ⟨rfl, rfl, ?_, ?_⟩
  · decide
  · decide

/-- C2: for every service account whose lookup succeeds and whose annotations hold
tenant-id `t` and client-id `c`, `FetchWorkloadIdentityInfo` returns exactly `(t, c)`
and no error, whatever the other annotations are. -/
theorem fetchWorkloadIdentityInfo_ok (ns name : String) (kubeClient : CoreV1Interface)
    (sa : ServiceAccount) (t c : String) (tr : Trace)
    (hget : kubeClient.ServiceAccountsGet ns name = .ok sa)
    (ht : sa.Annotations "azure.workload.identity/tenant-id" = some t)
    (hc : sa.Annotations "azure.workload.identity/client-id" = some c) :
    (FetchWorkloadIdentityInfo ns name kubeClient tr).1 = (t, c, none) := by
  simp only [FetchWorkloadIdentityInfo, hget, ht, hc]

/-- Witness of C2: tenant `t1`, client `c1`, next to an unrelated annotation. -/
theorem fetchWorkloadIdentityInfo_ok_witness :
    (FetchWorkloadIdentityInfo "ns1" "sa1"
      (clusterClient (accountWith [("owner", "team-a"),
        ("azure.workload.identity/client-id", "c1"),
        ("azure.workload.identity/tenant-id", "t1")]) (.ok "PT") patchOldSecret) []).1
      = ("t1", "c1", none) :=
  fetchWorkloadIdentityInfo_ok "ns1" "sa1" _
    (accountWith [("owner", "team-a"), ("azure.workload.identity/client-id", "c1"),
      ("azure.workload.identity/tenant-id", "t1")]) "t1" "c1" [] (by rfl) (by rfl) (by rfl)

/-- C3, as amended: `FetchWorkloadIdentityInfo` succeeds with identifiers `(t, c)` exactly
when the lookup returns a service account whose tenant-id annotation is present with
value `t` and whose client-id annotation is present with value `c`.  The values are
returned as they are: the identifiers are non-empty exactly when the annotation values
are, and a present but empty annotation gives a success with an empty identifier. -/
theorem fetchWorkloadIdentityInfo_success (ns name : String) (kubeClient : CoreV1Interface)
    (t c : String) (tr : Trace) :
    (FetchWorkloadIdentityInfo ns name kubeClient tr).1 = (t, c, none) ↔
      ∃ sa, kubeClient.ServiceAccountsGet ns name = .ok sa ∧
        sa.Annotations "azure.workload.identity/tenant-id" = some t ∧
        sa.Annotations "azure.workload.identity/client-id" = some c := by
  constructor
  · intro h
    unfold FetchWorkloadIdentityInfo at h
    cases hget : kubeClient.ServiceAccountsGet ns name with
    | error e => simp [hget] at h
    | ok sa =>
      cases ht : sa.Annotations "azure.workload.identity/tenant-id" with
      | none => simp [hget, ht] at h
      | some t' =>
        cases hc : sa.Annotations "azure.workload.identity/client-id" with
        | none => simp [hget, ht, hc] at h
        | some c' =>
          simp only [hget, ht, hc, Prod.mk.injEq, and_true] at h
          exact ⟨sa, rfl, by rw [ht, h.1], by rw [hc, h.2]⟩
  · rintro ⟨sa, hget, ht, hc⟩
    simp only [FetchWorkloadIdentityInfo, hget, ht, hc]

/-- Witness of C3 as amended, in both directions: tenant `t1` and client `c1`. -/
theorem fetchWorkloadIdentityInfo_success_witness :
    (∃ sa, (clusterClient (accountWith [("azure.workload.identity/tenant-id", "t1"),
        ("azure.workload.identity/client-id", "c1")]) (.ok "PT")
        patchOldSecret).ServiceAccountsGet "ns1" "sa1" = .ok sa ∧
      sa.Annotations "azure.workload.identity/tenant-id" = some "t1" ∧
      sa.Annotations "azure.workload.identity/client-id" = some "c1") ∧
    (FetchWorkloadIdentityInfo "ns1" "sa1"
      (clusterClient (accountWith [("azure.workload.identity/tenant-id", "t1"),
        ("azure.workload.identity/client-id", "c1")]) (.ok "PT") patchOldSecret) []).1
      = ("t1", "c1", none) :=
  ⟨(fetchWorkloadIdentityInfo_success "ns1" "sa1" _ "t1" "c1" []).mp (by rfl),
    (fetchWorkloadIdentityInfo_success "ns1" "sa1" _ "t1" "c1" []).mpr
      ⟨accountWith [("azure.workload.identity/tenant-id", "t1"),
        ("azure.workload.identity/client-id", "c1")], by rfl, by rfl, by rfl⟩⟩

/-- C3, counterexample: a tenant-id annotation that is present but empty is returned as
the empty tenant identifier, with no error. -/
theorem fetchWorkloadIdentityInfo_empty_tenant :
    (FetchWorkloadIdentityInfo "ns1" "sa1"
      (clusterClient (accountWith [("azure.workload.identity/tenant-id", ""),
        ("azure.workload.identity/client-id", "c1")]) (.ok "PT") patchOldSecret) []).1
      = ("", "c1", none) := by
  decide

/-! ## Scope construction -/

theorem scopeFor_of_contains (r : String) (h : Contains r ".default" = true) :
    scopeFor r = r := by
  simp [scopeFor, h]

theorem scopeFor_of_not_contains (r : String) (h : Contains r ".default" = false) :
    scopeFor r = r ++ "/.default" := by
  simp [scopeFor, h]

/-- C4: the scope construction rule is idempotent: applying it to its own result gives
the same string as applying it once, for every resource identifier. -/
theorem scopeFor_idempotent (r : String) : scopeFor (scopeFor r) = scopeFor r := by
  cases h : Contains r ".default" with
  | true => rw [scopeFor_of_contains r h, scopeFor_of_contains r h]
  | false =>
    rw [scopeFor_of_not_contains r h]
    exact scopeFor_of_contains _ (contains_append_right r "/.default" ".default" (by decide))

/-- C5, as amended: the rule returns `r` unchanged when `r` contains ".default"
anywhere, in particular when `r` ends with "/.default", and returns exactly
`r ++ "/.default"` when `r` does not contain ".default". -/
theorem scopeFor_cases (r : String) :
    (Contains r ".default" = true → scopeFor r = r) ∧
    (HasSuffix r "/.default" = true → scopeFor r = r) ∧
    (Contains r ".default" = false → scopeFor r = r ++ "/.default") :=
  ⟨scopeFor_of_contains r,
    fun h => scopeFor_of_contains r (contains_of_hasSuffix r "/.default" ".default" h (by decide)),
    scopeFor_of_not_contains r⟩

/-- Witness of C5 as amended: one identifier for each of the three cases. -/
theorem scopeFor_cases_witness :
    scopeFor "api.default.example" = "api.default.example" ∧
    scopeFor "499b84ac/.default" = "499b84ac/.default" ∧
    scopeFor "499b84ac" = "499b84ac/.default" :=
  ⟨(scopeFor_cases "api.default.example").1 (by decide),
    (scopeFor_cases "499b84ac/.default").2.1 (by decide),
    (scopeFor_cases "499b84ac").2.2 (by decide)⟩

/-- C5, counterexample: "api.default.example" does not end with "/.default", and the
rule returns it unchanged instead of appending the suffix. -/
theorem scopeFor_contains_not_suffix :
    HasSuffix "api.default.example" "/.default" = false ∧
    scopeFor "api.default.example" = "api.default.example" ∧
    scopeFor "api.default.example" ≠ "api.default.example" ++ "/.default" := by
  decide

/-- C10: for every tenant identifier, client identifier and projected token,
`FetchEntraIdAccessToken` creates the confidential client with authority
"https://login.microsoftonline.com/" ++ tenantID ++ "/oauth2/token", the given client
identifier and a credential whose assertion is the projected token unchanged; when the
client is created it requests exactly the one scope
"499b84ac-1321-427f-aa17-267ca6975798/.default".  The resource constant does not
contain ".default", so the appending branch is the one taken. -/
theorem fetchEntraIdAccessToken_request (env : Env) (tenantID clientID saToken : String)
    (tr : Trace) :
    Contains AzureDevOpsResourceId ".default" = false ∧
    scopeFor AzureDevOpsResourceId = AzureDevOpsResourceId ++ "/.default" ∧
    (FetchEntraIdAccessToken env tenantID clientID saToken tr).2 =
      match env.ConfidentialNew
          ("https://login.microsoftonline.com/" ++ tenantID ++ "/oauth2/token") clientID
          (NewCredFromAssertionCallback fun _ => (saToken, none)) with
      | .error _ =>
        tr ++ [Call.confidentialNew
          ("https://login.microsoftonline.com/" ++ tenantID ++ "/oauth2/token") clientID
          (saToken, none)]
      | .ok _ =>
        tr ++ [Call.confidentialNew
          ("https://login.microsoftonline.com/" ++ tenantID ++ "/oauth2/token") clientID
          (saToken, none),
          Call.acquireTokenByCredential ["499b84ac-1321-427f-aa17-267ca6975798/.default"]] := by
  have hc : Contains AzureDevOpsResourceId ".default" = false := by decide
  have hs : scopeFor AzureDevOpsResourceId = "499b84ac-1321-427f-aa17-267ca6975798/.default" := by
    decide
  refine ⟨hc, scopeFor_of_not_contains _ hc, ?_⟩
  simp only [FetchEntraIdAccessToken, hs, AzureEntraIDEndpoint, NewCredFromAssertionCallback]
  cases env.ConfidentialNew ("https://login.microsoftonline.com/" ++ tenantID ++ "/oauth2/token")
      clientID ⟨fun _ => (saToken, none)⟩ with
  | error e => simp
  | ok cClient =>
    simp only [List.append_assoc, List.singleton_append]
    split <;> rfl

/-! ## Base64 -/

set_option maxRecDepth 100000 in
theorem encodeAt_ne_padChar : ∀ i, i < 64 → encodeAt i ≠ padChar := by decide

set_option maxRecDepth 100000 in
theorem decodeChar_encodeAt : ∀ i, i < 64 → decodeChar (encodeAt i) = some i := by decide

set_option maxRecDepth 100000 in
theorem escapeChar_encodeAt : ∀ i, i < 64 → escapeChar (encodeAt i) = [encodeAt i] := by decide

theorem escapeChar_padChar : escapeChar padChar = [padChar] := by decide

theorem uint8_ofNat_eq (a : UInt8) (n : Nat) (h : n = a.toNat) : UInt8.ofNat n = a := by
  subst h
  cases a with
  | mk v =>
    apply congrArg UInt8.mk
    simp [UInt8.toNat]

theorem lt64 (n : Nat) : n % 64 < 64 := Nat.mod_lt n (by decide)

/-- Decoding the standard encoding of a byte sequence gives the sequence back. -/
theorem decodeChars_encodeBytes (src : List UInt8) :
    decodeChars (encodeBytes src) = some src := by
  induction src using encodeBytes.induct with
  | case1 a b c rest ih =>
    have ha := UInt8.toNat_lt a
    have hb := UInt8.toNat_lt b
    have hc := UInt8.toNat_lt c
    simp only [encodeBytes, decodeChars, if_neg (encodeAt_ne_padChar _ (lt64 _)),
      decodeChar_encodeAt _ (lt64 _), ih]
    congr 1
    rw [uint8_ofNat_eq a _ (by omega), uint8_ofNat_eq b _ (by omega),
      uint8_ofNat_eq c _ (by omega)]
  | case2 a b =>
    have ha := UInt8.toNat_lt a
    have hb := UInt8.toNat_lt b
    simp only [encodeBytes, decodeChars, if_neg (encodeAt_ne_padChar _ (lt64 _)),
      decodeChar_encodeAt _ (lt64 _), if_true, ne_eq, not_true_eq_false, if_false]
    rw [uint8_ofNat_eq a _ (by omega), uint8_ofNat_eq b _ (by omega)]
  | case3 a =>
    have ha := UInt8.toNat_lt a
    simp only [encodeBytes, decodeChars, decodeChar_encodeAt _ (lt64 _), if_true, ne_eq,
      not_true_eq_false, if_false]
    rw [uint8_ofNat_eq a _ (by omega)]
  | case4 => rfl

/-- No character of a standard encoding is escaped by `encoding/json`. -/
theorem flatMap_escapeChar_encodeBytes (src : List UInt8) :
    (encodeBytes src).flatMap escapeChar = encodeBytes src := by
  induction src using encodeBytes.induct with
  | case1 a b c rest ih =>
    simp only [encodeBytes, List.flatMap_cons, escapeChar_encodeAt _ (lt64 _), ih,
      List.singleton_append]
  | case2 a b =>
    simp only [encodeBytes, List.flatMap_cons, escapeChar_encodeAt _ (lt64 _),
      escapeChar_padChar, List.flatMap_nil, List.singleton_append, List.append_nil]
  | case3 a =>
    simp only [encodeBytes, List.flatMap_cons, escapeChar_encodeAt _ (lt64 _),
      escapeChar_padChar, List.flatMap_nil, List.singleton_append, List.append_nil]
  | case4 => rfl

/-! ## The patch document -/

theorem marshalString_encodeToString (src : List UInt8) :
    marshalString (EncodeToString src) =
      String.singleton (Char.ofNat 34) ++ EncodeToString src ++ String.singleton (Char.ofNat 34) := by
  apply String.ext
  simp only [marshalString, EncodeToString, flatMap_escapeChar_encodeBytes, String.data_append,
    String.singleton]
  rfl

/-- The bytes `json.Marshal` gives for `patchData token`. -/
theorem marshal_patchData (token : String) :
    Marshal (patchData token) =
      .ok ("\x7b\"data\":\x7b\"password\":\"" ++ EncodeToString (bytesOf token) ++ "\"\x7d\x7d") := by
  have e : marshalObject (marshalObject marshalString) (patchData token) =
      "\x7b\"data\":\x7b\"password\":\"" ++ EncodeToString (bytesOf token) ++ "\"\x7d\x7d" := by
    have h1 : marshalString "data" = "\"data\"" := by decide
    have h2 : marshalString "password" = "\"password\"" := by decide
    have h3 : String.singleton (Char.ofNat 34) = "\"" := by decide
    simp only [marshalObject, patchData, List.insertionSort, List.orderedInsert, List.map,
      String.intercalate, String.intercalate.go, marshalString_encodeToString, h1, h2, h3]
    apply String.ext
    simp only [String.data_append, List.append_assoc, List.cons_append, List.nil_append]
  simp only [Marshal, e]

theorem member?_setMember_same {α : Type} (k : String) (v : α) (l : List (String × α)) :
    member? k (setMember k v l) = some v := by
  induction l with
  | nil => simp [setMember, member?]
  | cons kv l ih =>
    obtain ⟨k', v'⟩ := kv
    by_cases h : k' = k
    · simp [setMember, member?, h]
    · simp [setMember, member?, h, ih]

theorem member?_setMember_other {α : Type} (k k' : String) (v : α) (l : List (String × α))
    (hk : k' ≠ k) : member? k' (setMember k v l) = member? k' l := by
  induction l with
  | nil => simp [setMember, member?, Ne.symm hk]
  | cons kv l ih =>
    obtain ⟨k₀, v₀⟩ := kv
    by_cases h : k₀ = k
    · subst h
      simp [setMember, member?, Ne.symm hk]
    · by_cases h' : k₀ = k'
      · subst h'
        simp [setMember, member?, h]
      · simp [setMember, member?, h, h', ih]

theorem mergePatch_patchData (secret : Secret) (token : String) :
    mergePatch secret (patchData token) =
      setMember "data" (setMember "password" (EncodeToString (bytesOf token))
        ((member? "data" secret).getD [])) secret := rfl

/-- The patch of `PatchSecret` is a partial update of any stored secret: after the merge
`data.password` is the encoded token, every other member of `data` and every other
member of the secret is what it was. -/
theorem mergePatch_patchData_frame (secret : Secret) (token : String) :
    (∃ data, member? "data" (mergePatch secret (patchData token)) = some data ∧
      member? "password" data = some (EncodeToString (bytesOf token)) ∧
      ∀ k, k ≠ "password" → member? k data = member? k ((member? "data" secret).getD [])) ∧
    ∀ k, k ≠ "data" →
      member? k (mergePatch secret (patchData token)) = member? k secret := by
  rw [mergePatch_patchData]
  refine ⟨⟨_, member?_setMember_same _ _ _, member?_setMember_same _ _ _, ?_⟩, ?_⟩
  · intro k hk
    exact member?_setMember_other _ _ _ _ hk
  · intro k hk
    exact member?_setMember_other _ _ _ _ hk

/-- C6: for every access token, the patch document of `PatchSecret` has exactly one entry,
`data.password`, whose value is the standard base64 encoding of the token's bytes; the
document is sent as a strategic merge patch of the named secret; merged into a secret
with fields `password = "old"` and `other = "x"` it leaves `other = "x"` and sets
`password` to the base64 encoding of the token; decoding that value gives the token's
bytes back. -/
theorem patchSecret_patch (ns name token : String) (client : CoreV1Interface) (tr : Trace) :
    patchData token = [("data", [("password", EncodeToString (bytesOf token))])] ∧
    (PatchSecret ns name token client tr).2 =
      tr ++ [Call.patchSecret ns name PatchType.StrategicMergePatchType
        ("\x7b\"data\":\x7b\"password\":\"" ++ EncodeToString (bytesOf token) ++ "\"\x7d\x7d")] ∧
    mergePatch [("data", [("password", "old"), ("other", "x")])] (patchData token) =
      [("data", [("password", EncodeToString (bytesOf token)), ("other", "x")])] ∧
    DecodeString (EncodeToString (bytesOf token)) = some (bytesOf token) := by
  refine ⟨rfl, ?_, rfl, decodeChars_encodeBytes _⟩
  simp only [PatchSecret, marshal_patchData]
  split <;> rfl

/-! ## The orchestrator -/

/-- C7: end to end.  If the in-cluster client is obtained, the lookup of principal `sa1`
in `ns1` returns annotations tenant `T` and client `C`, token issuance for `(ns1, sa1)`
returns `PT`, the exchange for `(T, C, PT)` returns `AT`, and the patch of `s1` in `ns1`
succeeds, then `UpdateAccessToken` calls resolve, issue, exchange and publish in that
order, each with the output of the step before, patches `s1` with
`password = base64(AT)`, and returns the updated secret and no error. -/
theorem updateAccessToken_success (env : Env) (config : env.Config) (clientset : Clientset)
    (sa : ServiceAccount) (issued : TokenRequest) (cClient : env.ConfidentialClient)
    (authRes : AuthResult) (updated : Secret) (ns1 sa1 s1 T C PT AT : String) (tr : Trace)
    (hconfig : env.InClusterConfig = .ok config)
    (hclient : env.NewForConfig config = .ok clientset)
    (hget : clientset.CoreV1.ServiceAccountsGet ns1 sa1 = .ok sa)
    (hT : sa.Annotations "azure.workload.identity/tenant-id" = some T)
    (hC : sa.Annotations "azure.workload.identity/client-id" = some C)
    (hissue : clientset.CoreV1.ServiceAccountsCreateToken ns1 sa1
      { Spec := { Audiences := ["api://AzureADTokenExchange"] }, Status := { Token := "" } }
      = .ok issued)
    (hPT : issued.Status.Token = PT)
    (hnew : env.ConfidentialNew ("https://login.microsoftonline.com/" ++ T ++ "/oauth2/token") C
      (NewCredFromAssertionCallback fun _ => (PT, none)) = .ok cClient)
    (hexchange : env.AcquireTokenByCredential cClient
      ["499b84ac-1321-427f-aa17-267ca6975798/.default"] = .ok authRes)
    (hAT : authRes.AccessToken = AT)
    (hpatch : clientset.CoreV1.SecretsPatch ns1 s1 PatchType.StrategicMergePatchType
      ("\x7b\"data\":\x7b\"password\":\"" ++ EncodeToString (bytesOf AT) ++ "\"\x7d\x7d")
      = .ok updated) :
    UpdateAccessToken env ns1 sa1 s1 tr =
      ((some updated, none),
        tr ++ [Call.getServiceAccount ns1 sa1,
          Call.createToken ns1 sa1 ["api://AzureADTokenExchange"],
          Call.confidentialNew ("https://login.microsoftonline.com/" ++ T ++ "/oauth2/token") C
            (PT, none),
          Call.acquireTokenByCredential ["499b84ac-1321-427f-aa17-267ca6975798/.default"],
          Call.patchSecret ns1 s1 PatchType.StrategicMergePatchType
            ("\x7b\"data\":\x7b\"password\":\"" ++ EncodeToString (bytesOf AT) ++
              "\"\x7d\x7d")]) := by
  have hs : scopeFor AzureDevOpsResourceId = "499b84ac-1321-427f-aa17-267ca6975798/.default" := by
    decide
  subst hPT hAT
  simp only [UpdateAccessToken, hconfig, hclient, FetchWorkloadIdentityInfo, hget, hT, hC,
    FetchSAToken, hissue, FetchEntraIdAccessToken, AzureEntraIDEndpoint, hs, hnew, hexchange,
    PatchSecret, marshal_patchData, hpatch, List.append_assoc, List.singleton_append]
  rfl

/-- Witness of C7: the scenario of the specification, `sa1` in `ns1` with tenant `T` and
client `C`, tokens `PT` and `AT`, secret `s1` holding `password = "old"`, `other = "x"`. -/
theorem updateAccessToken_success_witness :
    UpdateAccessToken
      (clusterEnv (clusterClient (accountWith [("azure.workload.identity/tenant-id", "T"),
        ("azure.workload.identity/client-id", "C")]) (.ok "PT") patchOldSecret) exchangeTCPT)
      "ns1" "sa1" "s1" [] =
      ((some [("data", [("password", "QVQ="), ("other", "x")])], none),
        [] ++ [Call.getServiceAccount "ns1" "sa1",
          Call.createToken "ns1" "sa1" ["api://AzureADTokenExchange"],
          Call.confidentialNew ("https://login.microsoftonline.com/" ++ "T" ++ "/oauth2/token")
            "C" ("PT", none),
          Call.acquireTokenByCredential ["499b84ac-1321-427f-aa17-267ca6975798/.default"],
          Call.patchSecret "ns1" "s1" PatchType.StrategicMergePatchType
            ("\x7b\"data\":\x7b\"password\":\"" ++ EncodeToString (bytesOf "AT") ++
              "\"\x7d\x7d")]) :=
  updateAccessToken_success
    (clusterEnv (clusterClient (accountWith [("azure.workload.identity/tenant-id", "T"),
      ("azure.workload.identity/client-id", "C")]) (.ok "PT") patchOldSecret) exchangeTCPT)
    () ⟨clusterClient (accountWith [("azure.workload.identity/tenant-id", "T"),
      ("azure.workload.identity/client-id", "C")]) (.ok "PT") patchOldSecret⟩
    (accountWith [("azure.workload.identity/tenant-id", "T"),
      ("azure.workload.identity/client-id", "C")])
    { Spec := { Audiences := ["api://AzureADTokenExchange"] }, Status := { Token := "PT" } }
    ("https://login.microsoftonline.com/T/oauth2/token", "C", "PT") ⟨"AT"⟩
    [("data", [("password", "QVQ="), ("other", "x")])] "ns1" "sa1" "s1" "T" "C" "PT" "AT" []
    rfl rfl (by rfl) (by rfl) (by rfl) (by rfl) rfl (by rfl) (by rfl) rfl (by rfl)

theorem storeAfter_of_publishCalls_nil {σ : Type}
    (apply : σ → String → String → PatchType → String → σ) (store : σ) (tr : Trace)
    (h : publishCalls tr = []) : storeAfter apply store tr = store := by
  induction tr generalizing store with
  | nil => rfl
  | cons c tr ih =>
    cases c <;> simp_all [publishCalls, storeAfter, List.filter_cons]

/-- C8: `UpdateAccessToken` stops at the first failing stage.  With the identity binding
resolved: if token issuance fails, it returns the error and the run makes no exchange
call and no publish call; if issuance succeeds and the exchange fails (creating the
confidential client or acquiring the token), it returns the error, the run makes no
publish call, and the credential store is what it was before the run. -/
theorem updateAccessToken_stops (env : Env) (config : env.Config) (clientset : Clientset)
    (sa : ServiceAccount) (ns name secretName T C e : String) (tr : Trace)
    (hconfig : env.InClusterConfig = .ok config)
    (hclient : env.NewForConfig config = .ok clientset)
    (hget : clientset.CoreV1.ServiceAccountsGet ns name = .ok sa)
    (hT : sa.Annotations "azure.workload.identity/tenant-id" = some T)
    (hC : sa.Annotations "azure.workload.identity/client-id" = some C) :
    (clientset.CoreV1.ServiceAccountsCreateToken ns name
        { Spec := { Audiences := ["api://AzureADTokenExchange"] }, Status := { Token := "" } }
        = .error e →
      ∃ calls, UpdateAccessToken env ns name secretName tr = ((none, some e), tr ++ calls) ∧
        (exchangeCalls calls).length = 0 ∧ (publishCalls calls).length = 0) ∧
    (∀ issued, clientset.CoreV1.ServiceAccountsCreateToken ns name
        { Spec := { Audiences := ["api://AzureADTokenExchange"] }, Status := { Token := "" } }
        = .ok issued →
      (env.ConfidentialNew ("https://login.microsoftonline.com/" ++ T ++ "/oauth2/token") C
          (NewCredFromAssertionCallback fun _ => (issued.Status.Token, none)) = .error e ∨
        ∃ cClient,
          env.ConfidentialNew ("https://login.microsoftonline.com/" ++ T ++ "/oauth2/token") C
            (NewCredFromAssertionCallback fun _ => (issued.Status.Token, none)) = .ok cClient ∧
          env.AcquireTokenByCredential cClient
            ["499b84ac-1321-427f-aa17-267ca6975798/.default"] = .error e) →
      ∃ calls, UpdateAccessToken env ns name secretName tr = ((none, some e), tr ++ calls) ∧
        (publishCalls calls).length = 0 ∧
        ∀ (σ : Type) (apply : σ → String → String → PatchType → String → σ) (store : σ),
          storeAfter apply store calls = store) := by
  have hs : scopeFor AzureDevOpsResourceId = "499b84ac-1321-427f-aa17-267ca6975798/.default" := by
    decide
  constructor
  · intro hissue
    refine ⟨[Call.getServiceAccount ns name,
      Call.createToken ns name ["api://AzureADTokenExchange"]], ?_, rfl, rfl⟩
    simp only [UpdateAccessToken, hconfig, hclient, FetchWorkloadIdentityInfo, hget, hT, hC,
      FetchSAToken, hissue, List.append_assoc, List.singleton_append]
  · intro issued hissue hfail
    rcases hfail with hnew | ⟨cClient, hnew, hacq⟩
    · refine ⟨[Call.getServiceAccount ns name,
        Call.createToken ns name ["api://AzureADTokenExchange"],
        Call.confidentialNew ("https://login.microsoftonline.com/" ++ T ++ "/oauth2/token") C
          (issued.Status.Token, none)], ?_, rfl, ?_⟩
      · simp only [UpdateAccessToken, hconfig, hclient, FetchWorkloadIdentityInfo, hget, hT, hC,
          FetchSAToken, hissue, FetchEntraIdAccessToken, AzureEntraIDEndpoint, hnew,
          List.append_assoc, List.singleton_append]
        rfl
      · intro σ apply store
        exact storeAfter_of_publishCalls_nil apply store _ rfl
    · refine ⟨[Call.getServiceAccount ns name,
        Call.createToken ns name ["api://AzureADTokenExchange"],
        Call.confidentialNew ("https://login.microsoftonline.com/" ++ T ++ "/oauth2/token") C
          (issued.Status.Token, none),
        Call.acquireTokenByCredential ["499b84ac-1321-427f-aa17-267ca6975798/.default"]],
        ?_, rfl, ?_⟩
      · simp only [UpdateAccessToken, hconfig, hclient, FetchWorkloadIdentityInfo, hget, hT, hC,
          FetchSAToken, hissue, FetchEntraIdAccessToken, AzureEntraIDEndpoint, hs, hnew, hacq,
          List.append_assoc, List.singleton_append]
        rfl
      · intro σ apply store
        exact storeAfter_of_publishCalls_nil apply store _ rfl

/-- Witness of C8: in the example cluster, a failing issuance ends the run after the
resolve and issue calls, and a rejected exchange ends it before any patch. -/
theorem updateAccessToken_stops_witness :
    (∃ calls, UpdateAccessToken
        (clusterEnv (clusterClient (accountWith [("azure.workload.identity/tenant-id", "T"),
          ("azure.workload.identity/client-id", "C")]) (.error "boom") patchOldSecret)
          exchangeTCPT) "ns1" "sa1" "s1" [] = ((none, some "boom"), [] ++ calls) ∧
      (exchangeCalls calls).length = 0 ∧ (publishCalls calls).length = 0) ∧
    (∃ calls, UpdateAccessToken
        (clusterEnv (clusterClient (accountWith [("azure.workload.identity/tenant-id", "T"),
          ("azure.workload.identity/client-id", "C")]) (.ok "stale") patchOldSecret)
          exchangeTCPT) "ns1" "sa1" "s1" [] = ((none, some "invalid_client"), [] ++ calls) ∧
      (publishCalls calls).length = 0 ∧
      ∀ (σ : Type) (apply : σ → String → String → PatchType → String → σ) (store : σ),
        storeAfter apply store calls = store) :=
  ⟨(updateAccessToken_stops
      (clusterEnv (clusterClient (accountWith [("azure.workload.identity/tenant-id", "T"),
        ("azure.workload.identity/client-id", "C")]) (.error "boom") patchOldSecret)
        exchangeTCPT)
      () ⟨clusterClient (accountWith [("azure.workload.identity/tenant-id", "T"),
        ("azure.workload.identity/client-id", "C")]) (.error "boom") patchOldSecret⟩
      (accountWith [("azure.workload.identity/tenant-id", "T"),
        ("azure.workload.identity/client-id", "C")])
      "ns1" "sa1" "s1" "T" "C" "boom" [] rfl rfl (by rfl) (by rfl) (by rfl)).1 (by rfl),
    (updateAccessToken_stops
      (clusterEnv (clusterClient (accountWith [("azure.workload.identity/tenant-id", "T"),
        ("azure.workload.identity/client-id", "C")]) (.ok "stale") patchOldSecret)
        exchangeTCPT)
      () ⟨clusterClient (accountWith [("azure.workload.identity/tenant-id", "T"),
        ("azure.workload.identity/client-id", "C")]) (.ok "stale") patchOldSecret⟩
      (accountWith [("azure.workload.identity/tenant-id", "T"),
        ("azure.workload.identity/client-id", "C")])
      "ns1" "sa1" "s1" "T" "C" "invalid_client" [] rfl rfl (by rfl) (by rfl) (by rfl)).2
      { Spec := { Audiences := ["api://AzureADTokenExchange"] }, Status := { Token := "stale" } }
      (by rfl)
      (Or.inr ⟨("https://login.microsoftonline.com/T/oauth2/token", "C", "stale"),
        by rfl, by rfl⟩)⟩

/-- C9, as amended: when a stage (resolve, issue, exchange or publish, in this order) is
the first to fail, with error `e`, `UpdateAccessToken` returns no secret and `e` itself,
unchanged: no stage context is added to it. -/
theorem updateAccessToken_error_verbatim (env : Env) (config : env.Config)
    (clientset : Clientset) (ns name secretName T C PT AT e : String) (tr : Trace)
    (hconfig : env.InClusterConfig = .ok config)
    (hclient : env.NewForConfig config = .ok clientset)
    (hfail :
      (FetchWorkloadIdentityInfo ns name clientset.CoreV1 tr).1.2.2 = some e ∨
      ((FetchWorkloadIdentityInfo ns name clientset.CoreV1 tr).1 = (T, C, none) ∧
        ((FetchSAToken ns name ["api://AzureADTokenExchange"] clientset.CoreV1
            (FetchWorkloadIdentityInfo ns name clientset.CoreV1 tr).2).1.2 = some e ∨
          ((FetchSAToken ns name ["api://AzureADTokenExchange"] clientset.CoreV1
              (FetchWorkloadIdentityInfo ns name clientset.CoreV1 tr).2).1 = (PT, none) ∧
            ((FetchEntraIdAccessToken env T C PT
                (FetchSAToken ns name ["api://AzureADTokenExchange"] clientset.CoreV1
                  (FetchWorkloadIdentityInfo ns name clientset.CoreV1 tr).2).2).1.2 = some e ∨
              ((FetchEntraIdAccessToken env T C PT
                  (FetchSAToken ns name ["api://AzureADTokenExchange"] clientset.CoreV1
                    (FetchWorkloadIdentityInfo ns name clientset.CoreV1 tr).2).2).1
                  = (AT, none) ∧
                (PatchSecret ns secretName AT clientset.CoreV1
                  (FetchEntraIdAccessToken env T C PT
                    (FetchSAToken ns name ["api://AzureADTokenExchange"] clientset.CoreV1
                      (FetchWorkloadIdentityInfo ns name clientset.CoreV1 tr).2).2).2).1.2
                  = some e)))))) :
    (UpdateAccessToken env ns name secretName tr).1 = (none, some e) := by
  simp only [UpdateAccessToken, hconfig, hclient]
  generalize FetchWorkloadIdentityInfo ns name clientset.CoreV1 tr = r1 at hfail ⊢
  obtain ⟨⟨t, c, err1⟩, tr1⟩ := r1
  rcases hfail with h1 | ⟨h1, hfail⟩
  · simp only at h1
    subst h1
    rfl
  · simp only [Prod.mk.injEq] at h1
    obtain ⟨rfl, rfl, rfl⟩ := h1
    simp only
    generalize FetchSAToken ns name ["api://AzureADTokenExchange"] clientset.CoreV1 tr1 = r2
      at hfail ⊢
    obtain ⟨⟨pt, err2⟩, tr2⟩ := r2
    rcases hfail with h2 | ⟨h2, hfail⟩
    · simp only at h2
      subst h2
      rfl
    · simp only [Prod.mk.injEq] at h2
      obtain ⟨rfl, rfl⟩ := h2
      simp only
      generalize FetchEntraIdAccessToken env t c pt tr2 = r3 at hfail ⊢
      obtain ⟨⟨a, err3⟩, tr3⟩ := r3
      rcases hfail with h3 | ⟨h3, h4⟩
      · simp only at h3
        subst h3
        rfl
      · simp only [Prod.mk.injEq] at h3
        obtain ⟨rfl, rfl⟩ := h3
        simp only at h4 ⊢
        generalize PatchSecret ns secretName a clientset.CoreV1 tr3 = r4 at h4 ⊢
        obtain ⟨⟨s, err4⟩, tr4⟩ := r4
        simp only at h4
        subst h4
        rfl

/-- Witness of C9 as amended: the store rejects the patch with "forbidden" and that
message is what `UpdateAccessToken` returns. -/
theorem updateAccessToken_error_verbatim_witness :
    (UpdateAccessToken
      (clusterEnv (clusterClient (accountWith [("azure.workload.identity/tenant-id", "T"),
        ("azure.workload.identity/client-id", "C")]) (.ok "PT") fun _ => .error "forbidden")
        exchangeTCPT) "ns1" "sa1" "s1" []).1 = (none, some "forbidden") :=
  updateAccessToken_error_verbatim
    (clusterEnv (clusterClient (accountWith [("azure.workload.identity/tenant-id", "T"),
      ("azure.workload.identity/client-id", "C")]) (.ok "PT") fun _ => .error "forbidden")
      exchangeTCPT)
    () ⟨clusterClient (accountWith [("azure.workload.identity/tenant-id", "T"),
      ("azure.workload.identity/client-id", "C")]) (.ok "PT") fun _ => .error "forbidden"⟩
    "ns1" "sa1" "s1" "T" "C" "PT" "AT" "forbidden" [] rfl rfl
    (Or.inr ⟨by rfl, Or.inr ⟨by rfl, Or.inr ⟨by rfl, by rfl⟩⟩⟩)

/-- C9, counterexample: token issuance failing with "boom" in one cluster and the patch
failing with "boom" in another make `UpdateAccessToken` return the same error, the bare
"boom": nothing in it tells the failing stage. -/
theorem updateAccessToken_error_no_stage :
    (clusterClient (accountWith [("azure.workload.identity/tenant-id", "T"),
      ("azure.workload.identity/client-id", "C")]) (.error "boom")
      patchOldSecret).ServiceAccountsCreateToken "ns1" "sa1"
      { Spec := { Audiences := ["api://AzureADTokenExchange"] }, Status := { Token := "" } }
      = .error "boom" ∧
    (UpdateAccessToken
      (clusterEnv (clusterClient (accountWith [("azure.workload.identity/tenant-id", "T"),
        ("azure.workload.identity/client-id", "C")]) (.error "boom") patchOldSecret)
        exchangeTCPT) "ns1" "sa1" "s1" []) =
      ((none, some "boom"), [Call.getServiceAccount "ns1" "sa1",
        Call.createToken "ns1" "sa1" ["api://AzureADTokenExchange"]]) ∧
    (clusterClient (accountWith [("azure.workload.identity/tenant-id", "T"),
      ("azure.workload.identity/client-id", "C")]) (.ok "PT")
      fun _ => .error "boom").SecretsPatch "ns1" "s1" PatchType.StrategicMergePatchType
      "\x7b\"data\":\x7b\"password\":\"QVQ=\"\x7d\x7d" = .error "boom" ∧
    (UpdateAccessToken
      (clusterEnv (clusterClient (accountWith [("azure.workload.identity/tenant-id", "T"),
        ("azure.workload.identity/client-id", "C")]) (.ok "PT") fun _ => .error "boom")
        exchangeTCPT) "ns1" "sa1" "s1" []) =
      ((none, some "boom"), [Call.getServiceAccount "ns1" "sa1",
        Call.createToken "ns1" "sa1" ["api://AzureADTokenExchange"],
        Call.confidentialNew "https://login.microsoftonline.com/T/oauth2/token" "C"
          ("PT", none),
        Call.acquireTokenByCredential ["499b84ac-1321-427f-aa17-267ca6975798/.default"],
        Call.patchSecret "ns1" "s1" PatchType.StrategicMergePatchType
          "\x7b\"data\":\x7b\"password\":\"QVQ=\"\x7d\x7d"]) := by
  refine ⟨by rfl, by rfl, by rfl, by rfl⟩

end Main
